import Mathlib

/-!
# Census Trade API Query Tool — verification of the notebook driver

Shallow embedding of the driver notebook `Census_API_Program_NB.ipynb`
(the only source file of the repository) together with models, built from
the specification, of the `trade_api_functions` (`taf`) module, which the
repository imports but whose source is absent.

The driver cells embedded from the source are:
* cell-6  — base-parameter resolution and API-key merge;
* cell-11 — time-range collection with the `+ 1` on the entered end year
  and the inverted-range re-prompt loop;
* cell-15 — the `data is None` check on the retrieval result;
* cell-17 — optional cleaning and the save call.
-/

namespace CensusTool

/-! ## Time-range driver (cell-11, from the source)

`valid_year_input` (from `taf`) loops until the user supplies a valid
4-digit year string; the driver then applies `int(...)` on the first
path but stores the raw string on the re-prompt path.  A stored value is
therefore either a Python `int` or a decimal string of that year. -/

/-- A Python value held by the driver's `start_year` / `end_year`
variables: either an `int`, or the raw decimal string (of the year `n`)
returned by `taf.valid_year_input` without an `int(...)` conversion. -/
inductive PyVal where
  | pyInt (n : Nat)
  | pyStr (n : Nat)
deriving DecidableEq, Repr

/-- Python `int(v)`: the identity on an `int`, decimal parsing on the
digit string returned by `valid_year_input`. -/
def toInt : PyVal → Nat
  | .pyInt n => n
  | .pyStr n => n

/-- The re-prompt loop of cell-11:
`while int(start_year) > int(end_year):` re-collects both years, storing
them **without** the `+ 1` and without `int(...)`.  The list argument is
the stream of year pairs the user would enter on successive re-prompts;
`none` means the guard still holds when the stream is exhausted. -/
def repromptLoop : PyVal × PyVal → List (Nat × Nat) → Option (PyVal × PyVal)
  | st, [] => if toInt st.1 > toInt st.2 then none else some st
  | st, (s, e) :: rest =>
      if toInt st.1 > toInt st.2 then
        repromptLoop (PyVal.pyStr s, PyVal.pyStr e) rest
      else some st

/-- Cell-11 in full: the first entered pair `(s, e)` is stored as
`start_year = int(...) = s` and `end_year = int(...) + 1 = e + 1`, then
the re-prompt loop runs.  Returns the final `(start_year, end_year)`
state handed to `taf.make_call`, or `none` if the entry stream ran out
while the guard held. -/
def timeRangeDriver (first : Nat × Nat) (reentries : List (Nat × Nat)) :
    Option (PyVal × PyVal) :=
  repromptLoop (PyVal.pyInt first.1, PyVal.pyInt (first.2 + 1)) reentries

/-- The numeric `(start, end)` bounds a final driver state passes to
`taf.make_call(base_url, parameters, start_year, end_year, ...)`. -/
def makeCallBounds (st : PyVal × PyVal) : Nat × Nat :=
  (toInt st.1, toInt st.2)

/-- Whether the re-prompt fires on the first attempt: the guard
`int(start_year) > int(end_year)` evaluated on the state stored by the
first-entry path. -/
def firstAttemptReprompts (s e : Nat) : Bool :=
  decide (toInt (PyVal.pyInt s) > toInt (PyVal.pyInt (e + 1)))

/-! ## Retrieval orchestrator periods

Modelled from the spec: `taf.make_call` is absent from `src/`; per the
spec the Retrieval Orchestrator constructs one sub-query per yearly
Period (never a multi-year span in one call).  Combined with the
driver's `+ 1` on the entered end year, the closed inclusive user range
corresponds to a half-open `[start, end)` iteration inside `make_call`
(the spec's Baltimore scenario: entered years 2010–2011 produce exactly
2 periods). -/

/-- Modelled from the spec: the yearly periods `make_call` issues one
sub-query for, given the driver's `(start_year, end_year)` bounds:
the half-open ascending range `[startY, endY)`. -/
def callYears (startY endY : Nat) : List Nat :=
  List.range' startY (endY - startY)

/-! ## Tables and the data cleaner

Modelled from the spec: `taf.clean_data` is absent from `src/`.  Per the
spec (§4.6) a `RawRecord` is a mapping of column name to value, and
cleaning (a) drops rows with null/placeholder values in the trade type's
key measure columns, (b) coerces the numeric columns to numeric type,
dropping rows holding non-numeric values there, and (c) drops exact
full-row duplicates.  The reported drop count is a side effect and is
not modelled. -/

/-- A cell value as returned by the API: null/missing, a raw string, or
an already-numeric value. -/
inductive Cell where
  | null
  | str (s : String)
  | num (n : Int)
deriving DecidableEq, Repr

/-- A `RawRecord`: column name to cell value, in column order. -/
abbrev Row : Type := List (String × Cell)

/-- A `ResultTable`: ordered sequence of records. -/
abbrev Table : Type := List Row

/-- Modelled from the spec: null and the provider's placeholder strings
count as missing in a key measure column. -/
def isPlaceholder : Cell → Bool
  | .null => true
  | .str s => s = "" || s = "-" || s = "NA"
  | .num _ => false

/-- Modelled from the spec: the key measure columns for a trade type
(rows missing these are dropped). -/
def keyCols (tradeType : String) : List String :=
  if tradeType = "imp_port" then ["PORT", "GEN_VAL_MO"]
  else if tradeType = "exp_port" then ["PORT", "ALL_VAL_MO"]
  else ["CTY_CODE", "GEN_VAL_MO"]

/-- Modelled from the spec: the columns coerced to numeric type for a
trade type. -/
def numCols (tradeType : String) : List String :=
  if tradeType = "imp_port" then ["GEN_VAL_MO"]
  else if tradeType = "exp_port" then ["ALL_VAL_MO"]
  else ["GEN_VAL_MO"]

/-- The cell a record holds in a named column (`null` when absent). -/
def colVal (r : Row) (c : String) : Cell :=
  (List.lookup c r).getD Cell.null

/-- A record passes the key-measure check when no key column holds a
null/placeholder value. -/
def keyOk (tradeType : String) (r : Row) : Bool :=
  (keyCols tradeType).all fun c => !isPlaceholder (colVal r c)

/-- Numeric coercion of one cell: numbers pass through, numeric strings
parse, anything else is invalid (`none`). -/
def coerceCell : Cell → Option Cell
  | .num n => some (.num n)
  | .str s => (s.toInt?).map Cell.num
  | .null => none

/-- Numeric coercion of a record: cells in the named numeric columns are
coerced, the rest pass through; the record is dropped (`none`) when any
coercion fails. -/
def coerceRow (cols : List String) : Row → Option Row
  | [] => some []
  | (c, v) :: rest =>
      match (if c ∈ cols then coerceCell v else some v),
            coerceRow cols rest with
      | some v', some rest' => some ((c, v') :: rest')
      | _, _ => none

/-- Modelled from the spec: `taf.clean_data(data, trade_type)` — drop
rows failing the key-measure check, coerce numeric columns (dropping
rows that fail), then drop exact full-row duplicates (keeping first
occurrences, preserving order). -/
def clean_data (t : Table) (tradeType : String) : Table :=
  ((t.filter (keyOk tradeType)).filterMap
      (coerceRow (numCols tradeType))).dedup

/-! ## Base parameters and the API-key merge (cell-6, from the source) -/

/-- Modelled from the spec: `taf.determine_base_params` is absent from
`src/`; per the spec it returns the parameter fields mandatory for the
trade type (e.g. the measure codes requested under `get`).  It carries
no `key` entry — the key is merged in by the driver. -/
def determine_base_params (tradeType : String) : List (String × String) :=
  if tradeType = "imp_port" then [("get", "PORT,PORT_NAME,GEN_VAL_MO")]
  else if tradeType = "exp_port" then [("get", "PORT,PORT_NAME,ALL_VAL_MO")]
  else [("get", "CTY_CODE,CTY_NAME,GEN_VAL_MO")]

/-- Python truthiness of the optional key string returned by
`taf.get_key()` (`None` and the empty string are falsy). -/
def keyTruthy : Option String → Bool
  | none => false
  | some k => k ≠ ""

/-- Cell-6: `parameters = taf.determine_base_params(trade_type)` then
`if key: parameters['key'] = key`.  Since the base parameters carry no
`key` field, the Python item assignment is an append. -/
def resolveParameters (tradeType : String) (key : Option String) :
    List (String × String) :=
  let parameters := determine_base_params tradeType
  if keyTruthy key then parameters ++ [("key", key.getD "")]
  else parameters

/-- Modelled from the spec: each sub-query's parameter mapping merges the
resolved base parameters with its Period; the base mapping is passed
through unchanged to every call. -/
def subQueryParams (params : List (String × String)) (year : Nat) :
    List (String × String) :=
  params ++ [("time", toString year)]

/-! ## Retrieval outcome (cell-15 check; outcome type modelled)

Modelled from the spec: `taf.make_call` classifies every sub-query and
returns a `ResultTable` when at least one sub-query succeeded with rows,
an explicit no-data signal when the query was valid but matched nothing,
and a hard failure when the query could not be executed at all. -/

/-- The retrieval result handed back to the driver. -/
inductive RetrievalOutcome where
  | resultTable (t : Table)
  | noDataFound
  | hardFailure
deriving DecidableEq

/-- The driver-side test for the no-data signal. -/
def isNoDataFound : RetrievalOutcome → Bool
  | .noDataFound => true
  | _ => false

/-- The driver-side test for a hard failure. -/
def isHardFailure : RetrievalOutcome → Bool
  | .hardFailure => true
  | _ => false

/-- Modelled from the spec: merging the per-sub-query payloads of an
executed retrieval — rows somewhere give a `ResultTable` of all payloads
concatenated in issue order, all-empty payloads give `noDataFound`. -/
def mergePayloads (payloads : List Table) : RetrievalOutcome :=
  if payloads.all fun p => List.isEmpty p then .noDataFound
  else .resultTable payloads.flatten

/-- Modelled from the spec: the retrieval outcome — `hardFailure` when
the query could not be executed, otherwise the merge of the sub-query
payloads. -/
def retrievalOutcome (executed : Bool) (payloads : List Table) :
    RetrievalOutcome :=
  if executed then mergePayloads payloads else .hardFailure

/-- The table the driver's `data` variable holds afterwards (the empty
table when no rows came back). -/
def tableOf : RetrievalOutcome → Table
  | .resultTable t => t
  | _ => ([] : List Row)

/-! ## Clean-and-save (cell-17, from the source) -/

/-- One invocation of `taf.save_data(table, trade_type, save_dir,
commodity, cleaned)`, as recorded by the driver. -/
structure SaveCall where
  table : Table
  tradeType : String
  dir : String
  label : String
  cleaned : Bool
deriving DecidableEq

/-- Cell-17: after `taf.prompt_yes_no` answers `cleanedChoice`, either
`taf.clean_data` is applied and the result saved with `cleaned=True`, or
the data is saved as is with `cleaned=False`.  Returns the save calls
the cell issues, in order. -/
def cleanAndSaveCell (data : Table) (tradeType dir label : String)
    (cleanedChoice : Bool) : List SaveCall :=
  if cleanedChoice then
    [⟨clean_data data tradeType, tradeType, dir, label, true⟩]
  else
    [⟨data, tradeType, dir, label, false⟩]

/-- The save calls a whole session issues after retrieval: the notebook's
clean-and-save cell runs only when the user explicitly executes it
(`exportRequested`); the retrieval cell itself writes nothing. -/
def sessionSaves (o : RetrievalOutcome) (exportRequested : Bool)
    (tradeType dir label : String) (cleanedChoice : Bool) : List SaveCall :=
  if exportRequested then
    cleanAndSaveCell (tableOf o) tradeType dir label cleanedChoice
  else []

/-! ## Exporter filename (modelled) -/

/-- Modelled from the spec: `taf.save_data`'s filename is derived
deterministically from the trade type, the optional label (e.g. the
commodity code) and the cleaned/raw marker; the observed raw output of
the notebook is `saved_data/_imp_port.csv` (empty label, raw). -/
def exportFileName (tradeType label : String) (cleaned : Bool) : String :=
  label ++ "_" ++ tradeType ++ (if cleaned then "_cleaned" else "") ++ ".csv"

/-- The full path `save_data` writes to / reports. -/
def exportPath (dir tradeType label : String) (cleaned : Bool) : String :=
  dir ++ "/" ++ exportFileName tradeType label cleaned

/-- The path a recorded save call writes to. -/
def SaveCall.path (c : SaveCall) : String :=
  exportPath c.dir c.tradeType c.label c.cleaned

/-! ## Cleaner lemmas -/

theorem coerceCell_num {v v' : Cell} (h : coerceCell v = some v') :
    ∃ n : Int, v' = Cell.num n := by
  cases v with
  | null => simp [coerceCell] at h
  | str s =>
      rcases hs : s.toInt? with _ | n
      · simp [coerceCell, hs] at h
      · simp only [coerceCell, hs, Option.map] at h
        injection h with h
        exact ⟨n, h.symm⟩
  | num n =>
      simp only [coerceCell, Option.some.injEq] at h
      exact ⟨n, h.symm⟩

theorem coerceCell_idem {v v' : Cell} (h : coerceCell v = some v') :
    coerceCell v' = some v' := by
  obtain ⟨n, rfl⟩ := coerceCell_num h
  rfl

theorem coerceCell_not_placeholder {v v' : Cell} (h : coerceCell v = some v') :
    isPlaceholder v' = false := by
  obtain ⟨n, rfl⟩ := coerceCell_num h
  rfl

theorem coerceRow_idem {cols : List String} :
    ∀ {r r' : List (String × Cell)}, coerceRow cols r = some r' →
      coerceRow cols r' = some r'
  | [], r', h => by
      simp only [coerceRow, Option.some.injEq] at h
      subst h; rfl
  | (c, v) :: rest, r', h => by
      rcases h1 : (if c ∈ cols then coerceCell v else some v) with _ | v'
      · simp only [coerceRow, h1] at h
        exact Option.noConfusion h
      rcases h2 : coerceRow cols rest with _ | rest'
      · simp only [coerceRow, h1, h2] at h
        exact Option.noConfusion h
      simp only [coerceRow, h1, h2, Option.some.injEq] at h
      subst h
      have hv' : (if c ∈ cols then coerceCell v' else some v') = some v' := by
        by_cases hc : c ∈ cols
        · rw [if_pos hc]
          rw [if_pos hc] at h1
          exact coerceCell_idem h1
        · rw [if_neg hc]
      have hrest' := coerceRow_idem h2
      simp only [coerceRow, hv', hrest']

theorem coerceRow_lookup {cols : List String} :
    ∀ {r r' : List (String × Cell)}, coerceRow cols r = some r' →
      ∀ c : String, List.lookup c r' = List.lookup c r ∨
        ∃ n : Int, List.lookup c r' = some (Cell.num n)
  | [], r', h, c => by
      simp only [coerceRow, Option.some.injEq] at h
      subst h; left; rfl
  | (c0, v) :: rest, r', h, c => by
      rcases h1 : (if c0 ∈ cols then coerceCell v else some v) with _ | v'
      · simp only [coerceRow, h1] at h
        exact Option.noConfusion h
      rcases h2 : coerceRow cols rest with _ | rest'
      · simp only [coerceRow, h1, h2] at h
        exact Option.noConfusion h
      simp only [coerceRow, h1, h2, Option.some.injEq] at h
      subst h
      by_cases hc : c = c0
      · subst hc
        by_cases hm : c ∈ cols
        · rw [if_pos hm] at h1
          obtain ⟨n, rfl⟩ := coerceCell_num h1
          right; exact ⟨n, by simp [List.lookup]⟩
        · rw [if_neg hm] at h1
          left
          simp only [Option.some.injEq] at h1
          subst h1
          simp [List.lookup]
      · have hbeq : (c == c0) = false := beq_false_of_ne hc
        rcases coerceRow_lookup h2 c with hsame | ⟨n, hn⟩
        · left; simp [List.lookup, hbeq, hsame]
        · right; exact ⟨n, by simp [List.lookup, hbeq, hn]⟩

theorem keyOk_coerceRow {tt : String} {cols : List String}
    {r r' : List (String × Cell)} (h : coerceRow cols r = some r')
    (hk : keyOk tt r = true) : keyOk tt r' = true := by
  simp only [keyOk, List.all_eq_true] at hk ⊢
  intro c hc
  rcases coerceRow_lookup h c with hsame | ⟨n, hn⟩
  · simpa [colVal, hsame] using hk c hc
  · simp [colVal, hn, isPlaceholder]

theorem filterMap_eq_self_of {α : Type} {f : α → Option α} :
    ∀ {l : List α}, (∀ x ∈ l, f x = some x) → l.filterMap f = l
  | [], _ => rfl
  | x :: xs, h => by
      have hx : f x = some x := h x (List.mem_cons_self x xs)
      have hxs : xs.filterMap f = xs :=
        filterMap_eq_self_of fun y hy => h y (List.mem_cons_of_mem x hy)
      simp [List.filterMap_cons, hx, hxs]

theorem clean_data_mem {t : Table} {tt : String} {r : Row}
    (h : r ∈ clean_data t tt) :
    keyOk tt r = true ∧ coerceRow (numCols tt) r = some r := by
  have h1 : r ∈ (t.filter (keyOk tt)).filterMap (coerceRow (numCols tt)) :=
    List.mem_dedup.mp h
  obtain ⟨r0, hr0, hco⟩ := List.mem_filterMap.mp h1
  have hk0 : keyOk tt r0 = true := (List.mem_filter.mp hr0).2
  exact ⟨keyOk_coerceRow hco hk0, coerceRow_idem hco⟩

theorem clean_data_idem (t : Table) (tt : String) :
    clean_data (clean_data t tt) tt = clean_data t tt := by
  have hfilter : (clean_data t tt).filter (keyOk tt) = clean_data t tt :=
    List.filter_eq_self.mpr fun r hr => (clean_data_mem hr).1
  have hmap : (clean_data t tt).filterMap (coerceRow (numCols tt)) =
      clean_data t tt :=
    filterMap_eq_self_of fun r hr => (clean_data_mem hr).2
  show (((clean_data t tt).filter (keyOk tt)).filterMap
      (coerceRow (numCols tt))).dedup = clean_data t tt
  rw [hfilter, hmap]
  exact List.dedup_idem

/-! ## Parameter lemmas -/

theorem lookup_append_some {β : Type} {l l' : List (String × β)} {a : String}
    {b : β} (h : List.lookup a l = some b) :
    List.lookup a (l ++ l') = some b := by
  induction l with
  | nil => exact Option.noConfusion h
  | cons x xs ih =>
      rcases x with ⟨a0, b0⟩
      rcases hab : (a == a0) with _ | _
      · simp only [List.cons_append, List.lookup, hab] at h ⊢
        exact ih h
      · simp only [List.cons_append, List.lookup, hab] at h ⊢
        exact h

theorem lookup_append_none {β : Type} {l l' : List (String × β)} {a : String}
    (h : List.lookup a l = none) :
    List.lookup a (l ++ l') = List.lookup a l' := by
  induction l with
  | nil => rfl
  | cons x xs ih =>
      rcases x with ⟨a0, b0⟩
      rcases hab : (a == a0) with _ | _
      · simp only [List.cons_append, List.lookup, hab] at h ⊢
        exact ih h
      · simp only [List.cons_append, List.lookup, hab] at h
        exact Option.noConfusion h

theorem base_params_no_key (tt : String) :
    List.lookup "key" (determine_base_params tt) = none := by
  unfold determine_base_params
  split
  · decide
  · split
    · decide
    · decide

/-! ## Claim theorems -/

/-- C1 — code bug.  The claim says every entered pair with
startYear > endYear fails validation with `RangeInverted` and is
re-collected before any API call.  The driver stores
`end_year = entered + 1` before the guard, so the inverted pair
(startYear, endYear) = (2011, 2010) passes the guard (`2011 > 2011` is
false), no re-prompt fires, and the driver proceeds to `make_call` with
bounds (2011, 2011) — contradicting the driver's own re-prompt message
that the start year cannot be greater than the end year. -/
theorem C1_inverted_pair_accepted :
    2011 > 2010 ∧
    firstAttemptReprompts 2011 2010 = false ∧
    timeRangeDriver (2011, 2010) [] =
      some (PyVal.pyInt 2011, PyVal.pyInt 2011) ∧
    makeCallBounds (PyVal.pyInt 2011, PyVal.pyInt 2011) = (2011, 2011) := by
  decide

/-- C2 — code bug.  The claim says every accepted pair with
startYear ≤ endYear yields exactly endYear − startYear + 1 yearly
periods, the closed inclusive range.  On the re-prompt path the driver
stores the re-entered end year without the `+ 1`, so after a rejected
first entry (2020, 2010), the accepted re-entry (2010, 2012) reaches
`make_call` with bounds (2010, 2012) and the retrieval covers only the
2 periods [2010, 2011] instead of the claimed 3 periods 2010–2012. -/
theorem C2_reprompt_path_drops_end_year :
    timeRangeDriver (2020, 2010) [(2010, 2012)] =
      some (PyVal.pyStr 2010, PyVal.pyStr 2012) ∧
    callYears 2010 2012 = [2010, 2011] ∧
    2012 - 2010 + 1 = 3 ∧
    (callYears 2010 2012).length = 2 := by
  decide

/-- C3 — confirmed (spec-modelled outcome type).  The retrieval outcome
lets a caller tell "valid query, matched nothing" (`noDataFound`) from
"query could not be executed" (`hardFailure`): the two signals are
produced under disjoint conditions, and each is decidably
recognisable. -/
theorem C3_no_data_distinct_from_failure (executed : Bool)
    (payloads : List Table) :
    (retrievalOutcome executed payloads = RetrievalOutcome.noDataFound →
      executed = true) ∧
    (retrievalOutcome executed payloads = RetrievalOutcome.hardFailure →
      executed = false) ∧
    (isNoDataFound (retrievalOutcome executed payloads) = true ↔
      retrievalOutcome executed payloads = RetrievalOutcome.noDataFound) ∧
    (isHardFailure (retrievalOutcome executed payloads) = true ↔
      retrievalOutcome executed payloads = RetrievalOutcome.hardFailure) ∧
    ¬(isNoDataFound (retrievalOutcome executed payloads) = true ∧
      isHardFailure (retrievalOutcome executed payloads) = true) := by
  cases executed with
  | false =>
      refine ⟨?_, ?_, ?_, ?_, ?_⟩ <;>
        simp [retrievalOutcome, isNoDataFound, isHardFailure]
  | true =>
      by_cases hall : payloads.all (fun p => List.isEmpty p) = true
      · refine ⟨?_, ?_, ?_, ?_, ?_⟩ <;>
          simp [retrievalOutcome, mergePayloads, hall, isNoDataFound,
            isHardFailure]
      · refine ⟨?_, ?_, ?_, ?_, ?_⟩ <;>
          simp [retrievalOutcome, mergePayloads, hall, isNoDataFound,
            isHardFailure]

/-- Witness for C3 at a concrete executed retrieval with one empty
payload. -/
theorem C3_no_data_distinct_from_failure_witness :
    (retrievalOutcome true [([] : Table)] = RetrievalOutcome.noDataFound →
      true = true) ∧
    (retrievalOutcome true [([] : Table)] = RetrievalOutcome.hardFailure →
      true = false) ∧
    (isNoDataFound (retrievalOutcome true [([] : Table)]) = true ↔
      retrievalOutcome true [([] : Table)] = RetrievalOutcome.noDataFound) ∧
    (isHardFailure (retrievalOutcome true [([] : Table)]) = true ↔
      retrievalOutcome true [([] : Table)] = RetrievalOutcome.hardFailure) ∧
    ¬(isNoDataFound (retrievalOutcome true [([] : Table)]) = true ∧
      isHardFailure (retrievalOutcome true [([] : Table)]) = true) :=
  C3_no_data_distinct_from_failure true [([] : Table)]

/-- C4 — confirmed (spec-modelled outcome; the notebook's clean-and-save
cell runs only on an explicit user action).  When every sub-query of an
executed retrieval returns an empty payload, the outcome is
`noDataFound` (not a failure), no save call is issued unless the export
cell is explicitly run, and any save call that is issued carries the
empty table. -/
theorem C4_all_empty_is_no_data (payloads : List Table)
    (h : ∀ p ∈ payloads, p = []) (req cleanedChoice : Bool)
    (tt dir label : String) :
    retrievalOutcome true payloads = RetrievalOutcome.noDataFound ∧
    isHardFailure (retrievalOutcome true payloads) = false ∧
    (req = false →
      sessionSaves (retrievalOutcome true payloads) req tt dir label
        cleanedChoice = []) ∧
    ∀ c ∈ sessionSaves (retrievalOutcome true payloads) req tt dir label
        cleanedChoice, c.table = [] := by
  have hall : payloads.all (fun p => List.isEmpty p) = true := by
    rw [List.all_eq_true]
    intro p hp
    rw [h p hp]
    rfl
  have hout : retrievalOutcome true payloads = RetrievalOutcome.noDataFound := by
    simp [retrievalOutcome, mergePayloads, hall]
  refine ⟨hout, by rw [hout]; rfl, ?_, ?_⟩
  · intro hreq
    rw [hreq]
    rfl
  · intro c hc
    rw [hout] at hc
    cases req with
    | false => simp [sessionSaves] at hc
    | true =>
        cases cleanedChoice with
        | false =>
            simp only [sessionSaves, if_true, cleanAndSaveCell, if_neg,
              Bool.false_eq_true, not_false_iff, tableOf,
              List.mem_singleton] at hc
            rw [hc]
        | true =>
            simp only [sessionSaves, if_true, cleanAndSaveCell, if_pos,
              tableOf, List.mem_singleton] at hc
            rw [hc]
            show clean_data [] tt = []
            rfl

/-- Witness for C4 with one empty sub-query payload, the export cell
run, and cleaning chosen. -/
theorem C4_all_empty_is_no_data_witness :
    retrievalOutcome true [([] : Table)] = RetrievalOutcome.noDataFound ∧
    isHardFailure (retrievalOutcome true [([] : Table)]) = false ∧
    (true = false →
      sessionSaves (retrievalOutcome true [([] : Table)]) true "imp_port"
        "saved_data" "" true = []) ∧
    ∀ c ∈ sessionSaves (retrievalOutcome true [([] : Table)]) true "imp_port"
        "saved_data" "" true, c.table = [] :=
  C4_all_empty_is_no_data [([] : Table)] (by decide) true true
    "imp_port" "saved_data" ""

/-- C5 — confirmed (spec-modelled cleaner).  The Data Cleaner is
idempotent: cleaning an already-cleaned table changes nothing, for any
input table and trade type. -/
theorem C5_clean_data_idempotent (t : Table) (tt : String) :
    clean_data (clean_data t tt) tt = clean_data t tt :=
  clean_data_idem t tt

/-- C6 — confirmed.  When a non-empty API key is supplied, cell-6 adds
it to the base parameters under `key`, keeping every mandatory base
parameter, and each sub-query's merged parameter mapping still carries
it; with no key supplied (or an empty one), the parameters are exactly
the base parameters, with no `key` entry. -/
theorem C6_key_in_every_call (tt k : String) (hk : k ≠ "") (year : Nat) :
    List.lookup "key" (resolveParameters tt (some k)) = some k ∧
    (∀ p ∈ determine_base_params tt, p ∈ resolveParameters tt (some k)) ∧
    List.lookup "key" (subQueryParams (resolveParameters tt (some k)) year) =
      some k ∧
    resolveParameters tt none = determine_base_params tt ∧
    List.lookup "key" (resolveParameters tt none) = none ∧
    resolveParameters tt (some "") = determine_base_params tt := by
  have htr : keyTruthy (some k) = true := by
    simp [keyTruthy, hk]
  have hres : resolveParameters tt (some k) =
      determine_base_params tt ++ [("key", k)] := by
    simp [resolveParameters, htr]
  have hlk : List.lookup "key" (resolveParameters tt (some k)) = some k := by
    rw [hres, lookup_append_none (base_params_no_key tt)]
    rfl
  refine ⟨hlk, ?_, lookup_append_some hlk, rfl, base_params_no_key tt, rfl⟩
  intro p hp
  rw [hres]
  exact List.mem_append_left _ hp

/-- Witness for C6 with the import-by-port trade type and a concrete
key. -/
theorem C6_key_in_every_call_witness :
    List.lookup "key" (resolveParameters "imp_port" (some "SECRETKEY")) =
      some "SECRETKEY" ∧
    (∀ p ∈ determine_base_params "imp_port",
      p ∈ resolveParameters "imp_port" (some "SECRETKEY")) ∧
    List.lookup "key"
      (subQueryParams (resolveParameters "imp_port" (some "SECRETKEY")) 2010) =
        some "SECRETKEY" ∧
    resolveParameters "imp_port" none = determine_base_params "imp_port" ∧
    List.lookup "key" (resolveParameters "imp_port" none) = none ∧
    resolveParameters "imp_port" (some "") =
      determine_base_params "imp_port" :=
  C6_key_in_every_call "imp_port" "SECRETKEY" (by decide) 2010

/-- C7 — confirmed.  Cell-17 makes cleaning optional: declining hands
`save_data` exactly the retrieved table, unchanged, with the raw
marker; accepting applies `clean_data` exactly once and saves with the
cleaned marker; either way the cell issues exactly one save call. -/
theorem C7_optional_clean_one_save (data : Table) (tt dir label : String) :
    cleanAndSaveCell data tt dir label false =
      [{ table := data, tradeType := tt, dir := dir, label := label,
         cleaned := false }] ∧
    cleanAndSaveCell data tt dir label true =
      [{ table := clean_data data tt, tradeType := tt, dir := dir,
         label := label, cleaned := true }] ∧
    ∀ choice : Bool, (cleanAndSaveCell data tt dir label choice).length = 1 := by
  refine ⟨rfl, rfl, ?_⟩
  intro choice
  cases choice <;> rfl

/-- C8 — confirmed (spec-modelled exporter filename).  The export path
is a function of (dir, tradeType, label, cleaned): save calls agreeing
on those fields write the same path, and the cleaned and raw variants
of the same retrieval write distinct paths. -/
theorem C8_export_path_deterministic (c1 c2 : SaveCall)
    (hd : c1.dir = c2.dir) (ht : c1.tradeType = c2.tradeType)
    (hl : c1.label = c2.label) (hc : c1.cleaned = c2.cleaned) :
    SaveCall.path c1 = SaveCall.path c2 ∧
    ∀ d tt l : String, exportPath d tt l true ≠ exportPath d tt l false := by
  constructor
  · simp [SaveCall.path, hd, ht, hl, hc]
  · intro d tt l hEq
    have hlen := congrArg String.length hEq
    simp only [exportPath, exportFileName, if_true, Bool.false_eq_true,
      if_false, String.length_append] at hlen
    have h8 : ("_cleaned" : String).length = 8 := by decide
    have h4 : (".csv" : String).length = 4 := by decide
    have h0 : ("" : String).length = 0 := by decide
    rw [h8, h4, h0] at hlen
    omega

/-- Witness for C8 at two save calls agreeing on all path fields. -/
theorem C8_export_path_deterministic_witness :
    SaveCall.path { table := ([] : Table), tradeType := "imp_port",
                    dir := "saved_data", label := "", cleaned := false } =
    SaveCall.path { table := [[("PORT", Cell.str "1303")]],
                    tradeType := "imp_port", dir := "saved_data",
                    label := "", cleaned := false } ∧
    ∀ d tt l : String, exportPath d tt l true ≠ exportPath d tt l false :=
  C8_export_path_deterministic _ _ rfl rfl rfl rfl

/-- C9 — confirmed.  The re-prompt guard compares the entered start year
against the entered end year plus one, so it fires iff
startYear > endYear + 1; in particular startYear = endYear + 1 is
accepted without re-prompting and `make_call` receives exactly the
stored bounds (startYear, endYear + 1). -/
theorem C9_reprompt_iff_exceeds_succ (s e : Nat) :
    (firstAttemptReprompts s e = true ↔ s > e + 1) ∧
    (timeRangeDriver (s, e) [] = none ↔ s > e + 1) ∧
    (s = e + 1 →
      timeRangeDriver (s, e) [] =
        some (PyVal.pyInt s, PyVal.pyInt (e + 1)) ∧
      makeCallBounds (PyVal.pyInt s, PyVal.pyInt (e + 1)) = (s, e + 1)) := by
  refine ⟨by simp [firstAttemptReprompts, toInt], ?_, ?_⟩
  · by_cases hgt : s > e + 1
    · simp [timeRangeDriver, repromptLoop, toInt, hgt]
    · simp [timeRangeDriver, repromptLoop, toInt, hgt]
  · intro hse
    subst hse
    refine ⟨?_, rfl⟩
    simp [timeRangeDriver, repromptLoop, toInt]

/-- Witness for C9 at the boundary pair (2011, 2010). -/
theorem C9_reprompt_iff_exceeds_succ_witness :
    (firstAttemptReprompts 2011 2010 = true ↔ 2011 > 2010 + 1) ∧
    (timeRangeDriver (2011, 2010) [] = none ↔ 2011 > 2010 + 1) ∧
    (2011 = 2010 + 1 →
      timeRangeDriver (2011, 2010) [] =
        some (PyVal.pyInt 2011, PyVal.pyInt (2010 + 1)) ∧
      makeCallBounds (PyVal.pyInt 2011, PyVal.pyInt (2010 + 1)) =
        (2011, 2010 + 1)) :=
  C9_reprompt_iff_exceeds_succ 2011 2010

/-- C10 — confirmed.  For identical user inputs (s, e) with s ≤ e, the
first-entry path stores ints and passes end bound e + 1 to `make_call`,
while the re-prompt path (after a rejected first entry) stores the raw
strings without the `+ 1`, passing end bound e — the two paths are not
equivalent. -/
theorem C10_first_and_reprompt_paths_differ (s0 e0 s e : Nat)
    (h0 : s0 > e0 + 1) (h : s ≤ e) :
    timeRangeDriver (s, e) [] =
      some (PyVal.pyInt s, PyVal.pyInt (e + 1)) ∧
    timeRangeDriver (s0, e0) [(s, e)] =
      some (PyVal.pyStr s, PyVal.pyStr e) ∧
    (makeCallBounds (PyVal.pyInt s, PyVal.pyInt (e + 1))).2 = e + 1 ∧
    (makeCallBounds (PyVal.pyStr s, PyVal.pyStr e)).2 = e ∧
    e + 1 ≠ e ∧
    PyVal.pyStr e ≠ PyVal.pyInt e := by
  have hs1 : ¬ s > e + 1 := by omega
  have hs2 : ¬ s > e := by omega
  refine ⟨?_, ?_, rfl, rfl, by omega, fun hcon => PyVal.noConfusion hcon⟩
  · simp [timeRangeDriver, repromptLoop, toInt, hs1]
  · simp [timeRangeDriver, repromptLoop, toInt, h0, hs2]

/-- Witness for C10: first entry (2020, 2010) is rejected, the re-entry
(2010, 2020) is accepted with end bound 2020 where the first-entry path
would pass 2021. -/
theorem C10_first_and_reprompt_paths_differ_witness :
    timeRangeDriver (2010, 2020) [] =
      some (PyVal.pyInt 2010, PyVal.pyInt (2020 + 1)) ∧
    timeRangeDriver (2020, 2010) [(2010, 2020)] =
      some (PyVal.pyStr 2010, PyVal.pyStr 2020) ∧
    (makeCallBounds (PyVal.pyInt 2010, PyVal.pyInt (2020 + 1))).2 = 2020 + 1 ∧
    (makeCallBounds (PyVal.pyStr 2010, PyVal.pyStr 2020)).2 = 2020 ∧
    2020 + 1 ≠ 2020 ∧
    PyVal.pyStr 2020 ≠ PyVal.pyInt 2020 :=
  C10_first_and_reprompt_paths_differ 2020 2010 2010 2020 (by decide)
    (by decide)

end CensusTool
